import Mathlib

/-!
Shallow embedding of the aries-virgo lookup service (`main.go`) and proofs
about the identifier-lookup / response-shaping logic of `ariesLookup`.

The embedding models:
* the output structures `aries` and `serviceURL`;
* the parsed solr response structures (`solrFullResponse`, `solrHeader`,
  `solrResponse`, `solrDoc`);
* Go's `url.QueryEscape` at the byte level (`queryEscape`);
* the membership helper `hasValue`;
* the query-string construction of `ariesLookup` (`buildQPS`, `lookupURLStr`);
* the single-document result construction (`buildAries`);
* the handler's decision logic after the HTTP call (`ariesLookup`), where the
  body returned by the backend is represented after the JSON-parsing boundary:
  `none` stands for a body `json.Unmarshal` rejects, `some resp` for a body
  that parses to `resp`.

A Go `[]string` field decoded from JSON is `nil` when the field is absent and
a non-nil (possibly empty) slice when present; `Option (List String)` mirrors
this for `shadowed_location_facet`, whose code path tests `== nil` explicitly.
Go `int` fields are modelled as `Int`.
-/

namespace AriesVirgo

/-- Output entry of the aries response: a URL with a protocol label
(struct `serviceURL` in main.go). -/
structure serviceURL where
  url : String
  protocol : String
  deriving DecidableEq, Repr

/-- The structure of the response returned by /api/aries/:id
(struct `aries` in main.go). -/
structure aries where
  identifiers : List String := []
  serviceURL : List serviceURL := []
  accessURL : List String := []
  metadataURL : List String := []
  deriving DecidableEq, Repr

/-- Standard header of a solr response (struct `solrHeader`). -/
structure solrHeader where
  status : Int
  qtime : Int
  deriving DecidableEq, Repr

/-- Document data returned by a solr query (struct `solrDoc`).
`shadowedLocationFacet = none` models a Go `nil` slice (field absent),
`some l` a present slice `l` (possibly empty). -/
structure solrDoc where
  id : String
  shadowedLocationFacet : Option (List String)
  marcDisplay : String
  alternateIDFacet : List String
  barcodeFacet : List String
  featureFacet : List String
  deriving DecidableEq, Repr

/-- Hit details of a solr query (struct `solrResponse`). -/
structure solrResponse where
  numFound : Int
  start : Int
  docs : List solrDoc
  deriving DecidableEq, Repr

/-- Complete parsed solr response (struct `solrFullResponse`). -/
structure solrFullResponse where
  responseHeader : solrHeader
  response : solrResponse
  deriving DecidableEq, Repr

/-- The three process-wide configuration values set from flags in `main`:
`solrURL`, `solrCore`, `virgoURL`. -/
structure config where
  solrURL : String
  solrCore : String
  virgoURL : String
  deriving DecidableEq, Repr

/-- `hasValue` from main.go: linear scan for an exact string match. -/
def hasValue (values : List String) (tgtVal : String) : Bool :=
  match values with
  | [] => false
  | val :: rest => if val == tgtVal then true else hasValue rest tgtVal

/-- Bytes Go's `url.QueryEscape` leaves unescaped: ASCII letters, digits,
and `-`, `_`, `.`, `~`. -/
def isUnreservedByte (b : UInt8) : Bool :=
  (65 ≤ b && b ≤ 90) || (97 ≤ b && b ≤ 122) || (48 ≤ b && b ≤ 57) ||
    b == 45 || b == 95 || b == 46 || b == 126

/-- Uppercase hexadecimal digit for `n < 16`, as in Go's escaping. -/
def hexDigitUpper (n : Nat) : Char :=
  if n < 10 then Char.ofNat (48 + n) else Char.ofNat (55 + n)

/-- Escape one byte the way Go's `url.QueryEscape` does: space becomes `+`,
unreserved bytes stay, anything else becomes `%XX` with uppercase hex. -/
def escapeByte (b : UInt8) : String :=
  if b == 32 then "+"
  else if isUnreservedByte b then String.singleton (Char.ofNat b.toNat)
  else String.mk ['%', hexDigitUpper (b.toNat / 16), hexDigitUpper (b.toNat % 16)]

/-- Go's `url.QueryEscape`: the string's UTF-8 bytes, each escaped. -/
def queryEscape (s : String) : String :=
  String.join ((s.data.flatMap String.utf8EncodeChar).map escapeByte)

/-- The query-clause list `qps` built at the top of `ariesLookup`
(main.go lines 102-105): three exact-phrase clauses for the passed id,
each escaped independently before being collected. -/
def buildQPS (passedID : String) : List String :=
  let qps : List String := []
  let qps := qps ++ [queryEscape ("id:\"" ++ passedID ++ "\"")]
  let qps := qps ++ [queryEscape ("alternate_id_facet:\"" ++ passedID ++ "\"")]
  let qps := qps ++ [queryEscape ("barcode_facet:\"" ++ passedID ++ "\"")]
  qps

/-- The field-list parameter `fl` of `ariesLookup` (main.go line 106). -/
def flParam : String :=
  "&fl=id,shadowed_location_facet,marc_display,alternate_id_facet,barcode_facet,feature_facet"

/-- The full solr request URL `urlStr` of `ariesLookup` (main.go line 107):
clauses joined with `+` (an encoded space, hence solr's default boolean OR). -/
def lookupURLStr (cfg : config) (passedID : String) : String :=
  cfg.solrURL ++ "/" ++ cfg.solrCore ++ "/select?q=" ++
    String.intercalate "+" (buildQPS passedID) ++ "&wt=json&indent=true" ++ flParam

/-- Result construction for the single matched document
(main.go lines 142-169). -/
def buildAries (cfg : config) (doc : solrDoc) : aries :=
  let identifiers := [doc.id] ++ doc.alternateIDFacet ++ doc.barcodeFacet
  let qp := queryEscape ("id:\"" ++ doc.id ++ "\"")
  let svc : List serviceURL :=
    [{ url := cfg.solrURL ++ "/" ++ cfg.solrCore ++ "/select?q=" ++ qp,
       protocol := "virgo-index" }]
  let svc :=
    if hasValue doc.featureFacet "iiif" then
      svc ++ [{ url := cfg.virgoURL ++ "/catalog/" ++ doc.id ++ "/iiif/manifest.json",
                protocol := "iiif-presentation" }]
    else svc
  let visible : Bool :=
    doc.shadowedLocationFacet.isNone ||
      hasValue (doc.shadowedLocationFacet.getD []) "VISIBLE"
  let accessURL : List String :=
    if visible then [cfg.virgoURL ++ "/catalog/" ++ doc.id] else []
  let metadataURL : List String :=
    if visible then
      if doc.marcDisplay != "" then [cfg.virgoURL ++ "/catalog/" ++ doc.id ++ ".xml"]
      else []
    else []
  { identifiers := identifiers, serviceURL := svc,
    accessURL := accessURL, metadataURL := metadataURL }

/-- What the handler writes back for one request. `httpText` models
`c.String(status, body)`, `httpJSON` models `c.JSON(status, out)`, and
`indexOutOfRange` models the Go runtime panic raised by `Docs[0]` on an
empty slice. -/
inductive lookupResult where
  | httpText (status : Int) (body : String)
  | httpJSON (status : Int) (out : aries)
  | indexOutOfRange
  deriving DecidableEq, Repr

/-- The decision logic of `ariesLookup` after the backend body has been
fetched (main.go lines 116-171). `parsed = none` is a body that
`json.Unmarshal` rejects; `parsed = some resp` is a body parsing to `resp`. -/
def ariesLookup (cfg : config) (passedID : String)
    (parsed : Option solrFullResponse) : lookupResult :=
  match parsed with
  | none => .httpText 404 (passedID ++ " not found")
  | some resp =>
    if resp.responseHeader.status != 0 then
      .httpText 404 (passedID ++ " not found")
    else if resp.response.numFound == 0 then
      .httpText 404 (passedID ++ " not found")
    else if resp.response.numFound > 1 then
      .httpText 400 (passedID ++ " has too many hits. Query: " ++ lookupURLStr cfg passedID)
    else
      match resp.response.docs with
      | [] => .indexOutOfRange
      | doc :: _ => .httpJSON 200 (buildAries cfg doc)

/-- The default configuration from the flag declarations in `main`
(main.go lines 215-217), used for concrete evaluations. -/
def cfg0 : config :=
  { solrURL := "http://solr.lib.virginia.edu:8082/solr"
    solrCore := "core"
    virgoURL := "https://search.lib.virginia.edu" }

/-- A concrete document with no `shadowed_location_facet` field (Go nil
slice), matching the spec's worked example. -/
def docNoShadow : solrDoc :=
  { id := "uva123", shadowedLocationFacet := none, marcDisplay := "<record/>",
    alternateIDFacet := [], barcodeFacet := ["X000111"], featureFacet := [] }

/-- A concrete document whose `shadowed_location_facet` is present but
empty: a non-nil empty Go slice. -/
def docShadowEmpty : solrDoc :=
  { docNoShadow with shadowedLocationFacet := some [] }

/-- `hasValue` decides exact membership: it returns `true` precisely when
the target string occurs in the list, compared by full string equality. -/
theorem hasValue_eq_mem (vs : List String) (t : String) :
    hasValue vs t = true ↔ t ∈ vs := by
  induction vs with
  | nil => simp [hasValue]
  | cons v rest ih =>
    by_cases h : v = t
    · simp [hasValue, h]
    · simp [hasValue, h, ih, Ne.symm h]

/-- The visibility condition of `buildAries` as a single Bool. -/
def visibleCond (doc : solrDoc) : Bool :=
  doc.shadowedLocationFacet.isNone ||
    hasValue (doc.shadowedLocationFacet.getD []) "VISIBLE"

theorem buildAries_accessURL (cfg : config) (doc : solrDoc) :
    (buildAries cfg doc).accessURL =
      if visibleCond doc then [cfg.virgoURL ++ "/catalog/" ++ doc.id] else [] := rfl

theorem buildAries_metadataURL (cfg : config) (doc : solrDoc) :
    (buildAries cfg doc).metadataURL =
      if visibleCond doc then
        if doc.marcDisplay != "" then [cfg.virgoURL ++ "/catalog/" ++ doc.id ++ ".xml"]
        else []
      else [] := rfl

/-- Claim C1 counterexample: for the document `docShadowEmpty`, whose
visibility-tag set is present but empty (`some []`), the claim as stated
requires an access URL, but the code produces none: `ShadowedLocationFacet
== nil` is false for a non-nil empty slice and `hasValue [] "VISIBLE"` is
false, so the item is treated as shadowed. -/
theorem c1_empty_tags_no_access_url :
    docShadowEmpty.shadowedLocationFacet = some [] ∧
    (buildAries cfg0 docShadowEmpty).accessURL = [] := by decide

/-- Claim C1 (amended): a document whose visibility-tag set is absent (Go
nil slice) gets the access URL for its id; a document whose visibility-tag
set is present (even empty) and does not contain "VISIBLE" gets no access
URL and no metadata URL, regardless of the marc blob. -/
theorem c1_visibility_gating (cfg : config) (doc : solrDoc) :
    (doc.shadowedLocationFacet = none →
      (buildAries cfg doc).accessURL = [cfg.virgoURL ++ "/catalog/" ++ doc.id]) ∧
    (∀ l, doc.shadowedLocationFacet = some l → hasValue l "VISIBLE" = false →
      (buildAries cfg doc).accessURL = [] ∧ (buildAries cfg doc).metadataURL = []) := by
  constructor
  · intro h
    rw [buildAries_accessURL]
    simp [visibleCond, h]
  · intro l hl hv
    rw [buildAries_accessURL, buildAries_metadataURL]
    simp [visibleCond, hl, hv]

/-- Claim C1 witness: the amended theorem applied to `docNoShadow`
(absent tag set, access URL produced) and to a document shadowed by
`["SHADOWED"]` with a non-empty marc blob (no access URL, no metadata
URL). -/
theorem c1_visibility_gating_witness :
    (buildAries cfg0 docNoShadow).accessURL =
      ["https://search.lib.virginia.edu/catalog/uva123"] ∧
    (buildAries cfg0 { docNoShadow with shadowedLocationFacet := some ["SHADOWED"] }).accessURL = [] ∧
    (buildAries cfg0 { docNoShadow with shadowedLocationFacet := some ["SHADOWED"] }).metadataURL = [] := by
  refine ⟨(c1_visibility_gating cfg0 docNoShadow).1 rfl, ?_, ?_⟩
  · exact ((c1_visibility_gating cfg0 _).2 ["SHADOWED"] rfl (by decide)).1
  · exact ((c1_visibility_gating cfg0 _).2 ["SHADOWED"] rfl (by decide)).2

/-- Claim C2 counterexample: for the concrete document `docNoShadow`, the
first service-url entry carries the protocol label "virgo-index" (main.go
line 154), which is not the label "index-lookup" the claim states. -/
theorem c2_first_protocol_not_index_lookup :
    ((buildAries cfg0 docNoShadow).serviceURL.map (fun s => s.protocol)).head? =
      some "virgo-index" ∧
    ("virgo-index" : String) ≠ "index-lookup" := by decide

/-- Claim C2 (amended): every matched document's result has a first
service-url entry whose URL is the self-referential solr query for the
document id and whose protocol label is "virgo-index". -/
theorem c2_first_service_url (cfg : config) (doc : solrDoc) :
    (buildAries cfg doc).serviceURL.head? =
      some { url := cfg.solrURL ++ "/" ++ cfg.solrCore ++ "/select?q=" ++
               queryEscape ("id:\"" ++ doc.id ++ "\""),
             protocol := "virgo-index" } := by
  by_cases h : hasValue doc.featureFacet "iiif" <;> simp [buildAries, h]

/-- Claim C3: the solr query URL is built from exactly three exact-phrase
clauses over the passed identifier, on fields id, alternate_id_facet and
barcode_facet, each clause escaped independently by `queryEscape`, and the
clauses joined with `+` (an encoded space, solr's default boolean OR). -/
theorem c3_query_three_clauses (cfg : config) (passedID : String) :
    lookupURLStr cfg passedID =
      cfg.solrURL ++ "/" ++ cfg.solrCore ++ "/select?q=" ++
        String.intercalate "+"
          [queryEscape ("id:\"" ++ passedID ++ "\""),
           queryEscape ("alternate_id_facet:\"" ++ passedID ++ "\""),
           queryEscape ("barcode_facet:\"" ++ passedID ++ "\"")] ++
        "&wt=json&indent=true" ++ flParam := rfl

/-- Claim C4: for a parsed backend response with a zero response-status
header, zero hits yield the 404 not-found text, and more than one hit
yields the 400 text containing the query URL used — in both cases a plain
text error, never a (partial) JSON result. -/
theorem c4_zero_and_many_hits (cfg : config) (passedID : String)
    (resp : solrFullResponse) (hstatus : resp.responseHeader.status = 0) :
    (resp.response.numFound = 0 →
      ariesLookup cfg passedID (some resp) =
        .httpText 404 (passedID ++ " not found")) ∧
    (resp.response.numFound > 1 →
      ariesLookup cfg passedID (some resp) =
        .httpText 400 (passedID ++ " has too many hits. Query: " ++
          lookupURLStr cfg passedID)) := by
  constructor
  · intro h
    simp [ariesLookup, hstatus, h]
  · intro h
    have h0 : resp.response.numFound ≠ 0 := by omega
    simp [ariesLookup, hstatus, h0, h]

/-- Claim C4 witness: the theorem applied to a response with zero hits and
to a response with two hits, both with a zero status header. -/
theorem c4_zero_and_many_hits_witness :
    ariesLookup cfg0 "u1" (some ⟨⟨0, 3⟩, ⟨0, 0, []⟩⟩) =
      .httpText 404 "u1 not found" ∧
    ariesLookup cfg0 "u1" (some ⟨⟨0, 3⟩, ⟨2, 0, []⟩⟩) =
      .httpText 400 ("u1 has too many hits. Query: " ++ lookupURLStr cfg0 "u1") :=
  ⟨(c4_zero_and_many_hits cfg0 "u1" ⟨⟨0, 3⟩, ⟨0, 0, []⟩⟩ rfl).1 rfl,
   (c4_zero_and_many_hits cfg0 "u1" ⟨⟨0, 3⟩, ⟨2, 0, []⟩⟩ rfl).2 (by decide)⟩

/-- Claim C5: the identifiers list is the document id followed by its
alternate ids followed by its barcodes, in order, with no de-duplication. -/
theorem c5_identifiers_order (cfg : config) (doc : solrDoc) :
    (buildAries cfg doc).identifiers =
      doc.id :: (doc.alternateIDFacet ++ doc.barcodeFacet) := by
  simp [buildAries]

/-- Claim C6: when the feature facet contains "iiif" the service-url list
has exactly the index-query entry followed by the iiif-presentation
manifest entry (two entries); otherwise it is exactly the index-query
entry alone (one entry). -/
theorem c6_service_url_entries (cfg : config) (doc : solrDoc) :
    (hasValue doc.featureFacet "iiif" = true →
      (buildAries cfg doc).serviceURL =
        [{ url := cfg.solrURL ++ "/" ++ cfg.solrCore ++ "/select?q=" ++
             queryEscape ("id:\"" ++ doc.id ++ "\""),
           protocol := "virgo-index" },
         { url := cfg.virgoURL ++ "/catalog/" ++ doc.id ++ "/iiif/manifest.json",
           protocol := "iiif-presentation" }]) ∧
    (hasValue doc.featureFacet "iiif" = false →
      (buildAries cfg doc).serviceURL =
        [{ url := cfg.solrURL ++ "/" ++ cfg.solrCore ++ "/select?q=" ++
             queryEscape ("id:\"" ++ doc.id ++ "\""),
           protocol := "virgo-index" }]) := by
  constructor <;> intro h <;> simp [buildAries, h]

/-- Claim C6 witness: the theorem applied to `docNoShadow` with the "iiif"
feature tag (two entries) and to `docNoShadow` itself (one entry). -/
theorem c6_service_url_entries_witness :
    (buildAries cfg0 { docNoShadow with featureFacet := ["iiif"] }).serviceURL.length = 2 ∧
    (buildAries cfg0 docNoShadow).serviceURL.length = 1 := by
  constructor
  · rw [(c6_service_url_entries cfg0 { docNoShadow with featureFacet := ["iiif"] }).1 (by decide)]
    rfl
  · rw [(c6_service_url_entries cfg0 docNoShadow).2 (by decide)]
    rfl

/-- Claim C7: for a visible document (absent tag set, or tag set containing
"VISIBLE"), a non-empty marc-display blob yields exactly the one XML export
metadata URL, and an empty blob yields no metadata URL. -/
theorem c7_metadata_url (cfg : config) (doc : solrDoc)
    (hvis : doc.shadowedLocationFacet = none ∨
      hasValue (doc.shadowedLocationFacet.getD []) "VISIBLE" = true) :
    (doc.marcDisplay ≠ "" →
      (buildAries cfg doc).metadataURL =
        [cfg.virgoURL ++ "/catalog/" ++ doc.id ++ ".xml"]) ∧
    (doc.marcDisplay = "" → (buildAries cfg doc).metadataURL = []) := by
  have hb : visibleCond doc = true := by
    rcases hvis with h | h <;> simp [visibleCond, h]
  rw [and_comm]
  constructor <;> intro h <;> rw [buildAries_metadataURL] <;> simp [hb, h]

/-- Claim C7 witness: the theorem applied to `docNoShadow` (non-empty blob,
one metadata URL) and to the same document with an empty blob (none). -/
theorem c7_metadata_url_witness :
    (buildAries cfg0 docNoShadow).metadataURL =
      ["https://search.lib.virginia.edu/catalog/uva123.xml"] ∧
    (buildAries cfg0 { docNoShadow with marcDisplay := "" }).metadataURL = [] :=
  ⟨(c7_metadata_url cfg0 docNoShadow (Or.inl rfl)).1 (by decide),
   (c7_metadata_url cfg0 { docNoShadow with marcDisplay := "" } (Or.inl rfl)).2 rfl⟩

/-- Claim C8: a backend body that fails to parse (modelled as `none`), and a
parsed response whose status header is non-zero, both yield the 404
not-found text for the identifier. -/
theorem c8_unparsed_or_bad_status (cfg : config) (passedID : String) :
    (ariesLookup cfg passedID none = .httpText 404 (passedID ++ " not found")) ∧
    (∀ resp : solrFullResponse, resp.responseHeader.status ≠ 0 →
      ariesLookup cfg passedID (some resp) =
        .httpText 404 (passedID ++ " not found")) := by
  refine ⟨rfl, fun resp h => ?_⟩
  simp [ariesLookup, h]

/-- Claim C8 witness: the theorem applied to an unparseable body and to a
parsed response with status header 400. -/
theorem c8_unparsed_or_bad_status_witness :
    ariesLookup cfg0 "u1" none = .httpText 404 "u1 not found" ∧
    ariesLookup cfg0 "u1" (some ⟨⟨400, 3⟩, ⟨1, 0, [docNoShadow]⟩⟩) =
      .httpText 404 "u1 not found" :=
  ⟨(c8_unparsed_or_bad_status cfg0 "u1").1,
   (c8_unparsed_or_bad_status cfg0 "u1").2 ⟨⟨400, 3⟩, ⟨1, 0, [docNoShadow]⟩⟩ (by decide)⟩

/-- Claim C9: on a response with status header 0 reporting exactly one hit,
the handler indexes the first document without checking the list: with a
non-empty documents list the success path produces the result for the first
document, and with an empty documents list the out-of-range indexing branch
(a Go runtime panic) is reached. -/
theorem c9_single_hit_indexing (cfg : config) (passedID : String)
    (resp : solrFullResponse) (hstatus : resp.responseHeader.status = 0)
    (hnum : resp.response.numFound = 1) :
    (resp.response.docs = [] →
      ariesLookup cfg passedID (some resp) = .indexOutOfRange) ∧
    (∀ doc rest, resp.response.docs = doc :: rest →
      ariesLookup cfg passedID (some resp) =
        .httpJSON 200 (buildAries cfg doc)) := by
  constructor
  · intro h
    simp [ariesLookup, hstatus, hnum, h]
  · intro doc rest h
    simp [ariesLookup, hstatus, hnum, h]

/-- Claim C9 witness: the theorem applied to a response reporting one hit
with an empty documents list: the indexing error branch is reached. -/
theorem c9_single_hit_indexing_witness :
    ariesLookup cfg0 "u1" (some ⟨⟨0, 3⟩, ⟨1, 0, []⟩⟩) = .indexOutOfRange :=
  (c9_single_hit_indexing cfg0 "u1" ⟨⟨0, 3⟩, ⟨1, 0, []⟩⟩ rfl rfl).1 rfl

/-- Claim C10: `hasValue` decides exact, case-sensitive membership, so a
document whose visibility tags (present) lack the exact string "VISIBLE"
and whose feature tags lack the exact string "iiif" — e.g. tags differing
only in letter case — is handled as shadowed (no access or metadata URL)
and without the manifest capability (a single service-url entry). -/
theorem c10_case_sensitive_markers (cfg : config) (doc : solrDoc)
    (l : List String) (hs : doc.shadowedLocationFacet = some l)
    (hv : "VISIBLE" ∉ l) (hf : "iiif" ∉ doc.featureFacet) :
    (∀ (vs : List String) (t : String), hasValue vs t = true ↔ t ∈ vs) ∧
    (buildAries cfg doc).accessURL = [] ∧
    (buildAries cfg doc).metadataURL = [] ∧
    (buildAries cfg doc).serviceURL.length = 1 := by
  have hv' : hasValue l "VISIBLE" = false := by
    rw [Bool.eq_false_iff]
    intro h
    exact hv ((hasValue_eq_mem l "VISIBLE").1 h)
  have hf' : hasValue doc.featureFacet "iiif" = false := by
    rw [Bool.eq_false_iff]
    intro h
    exact hf ((hasValue_eq_mem doc.featureFacet "iiif").1 h)
  refine ⟨hasValue_eq_mem, ?_, ?_, ?_⟩
  · rw [buildAries_accessURL]
    simp [visibleCond, hs, hv']
  · rw [buildAries_metadataURL]
    simp [visibleCond, hs, hv']
  · simp [buildAries, hf']

/-- A concrete document whose tags are case variants of the markers:
"visible" instead of "VISIBLE", "IIIF" instead of "iiif". -/
def docCaseVariant : solrDoc :=
  { id := "uva123", shadowedLocationFacet := some ["visible"],
    marcDisplay := "<record/>", alternateIDFacet := [], barcodeFacet := ["X000111"],
    featureFacet := ["IIIF"] }

/-- Claim C10 witness: the theorem applied to `docCaseVariant`, whose
case-variant tags "visible" and "IIIF" are not treated as the markers
"VISIBLE" and "iiif". -/
theorem c10_case_sensitive_markers_witness :
    (buildAries cfg0 docCaseVariant).accessURL = [] ∧
    (buildAries cfg0 docCaseVariant).metadataURL = [] ∧
    (buildAries cfg0 docCaseVariant).serviceURL.length = 1 :=
  (c10_case_sensitive_markers cfg0 docCaseVariant
    ["visible"] rfl (by decide) (by decide)).2

end AriesVirgo
